import Mathlib

/-!
Shallow embedding of the Colpali-docker orchestration/tracking engine.

The SQLite-backed stores (`SQLiteMetadataStore` in `src/etl/utils.py` and
`FileTracker` in `src/utils/pipeline_utils.py`) are modelled as in-memory
lists of records; one SQL `UPDATE ... WHERE file_hash = ?` becomes a `map`
that rewrites every matching row.  The external adapters (SharePoint
download, blob upload, the ColPali embedding model, the Qdrant upsert) are
modelled as oracle fields of an environment record carrying either the
value the adapter would return or the message of the exception it would
raise, exactly at the call sites where `src/etl/pipeline.py` invokes them.
-/

/-- Python truthiness of an optional string argument: `if x:` is taken for
a present, non-empty string (`None` and `""` are falsy). -/
def truthy : Option String → Bool
  | none => false
  | some s => !(s == "")

/-- Python truthiness of an optional list argument (`None` and `[]` are falsy). -/
def truthyList : Option (List String) → Bool
  | none => false
  | some l => !l.isEmpty

/-! ### Data model: `files` table of SQLiteMetadataStore (src/etl/utils.py lines 83-101) -/

structure FileRecord where
  file_id : String
  file_name : String
  file_hash : String
  file_size : Nat
  file_type : String
  sharepoint_path : String
  sharepoint_modified : Option String
  blob_url : Option String
  blob_name : Option String
  download_timestamp : Option String
  upload_timestamp : Option String
  status : String
  error_message : Option String
  retry_count : Nat
  metadata : Option String
deriving Repr, DecidableEq

/-- Row of the `embeddings` table (src/etl/utils.py lines 104-116). -/
structure EmbeddingRecord where
  embedding_id : String
  file_id : String
  page_number : Nat
  vector_id : String
  embedding_dimension : Nat
  tokens_count : Nat
  processing_timestamp : String
  qdrant_uploaded : Bool
deriving Repr, DecidableEq

/-- Row of the `processing_batches` table (src/etl/utils.py lines 119-130). -/
structure BatchRecord where
  batch_id : String
  batch_start_time : String
  batch_end_time : Option String
  total_files : Nat
  successful_files : Nat
  failed_files : Nat
  status : String
  error_summary : Option String
deriving Repr, DecidableEq

/-- Arguments of `SQLiteMetadataStore.add_file` (src/etl/utils.py lines 163-173). -/
structure SQLiteMetadataStore.AddArgs where
  file_id : String
  file_name : String
  file_hash : String
  file_size : Nat
  file_type : String
  sharepoint_path : String
  sharepoint_modified : Option String
  metadata : Option String
deriving Repr, DecidableEq

/-- `SQLiteMetadataStore.file_exists` (src/etl/utils.py lines 143-161):
`SELECT * FROM files WHERE file_hash = ?`, first row or `None`. -/
def SQLiteMetadataStore.file_exists (files : List FileRecord) (file_hash : String) :
    Option FileRecord :=
  files.find? (fun r => r.file_hash == file_hash)

/-- `SQLiteMetadataStore.add_file` (src/etl/utils.py lines 163-215): returns
`False` leaving the table untouched when a record with the hash exists,
otherwise inserts a fresh row with status `'pending'`, `download_timestamp`
stamped `now`, and `retry_count` at its column default 0. -/
def SQLiteMetadataStore.add_file (files : List FileRecord)
    (a : SQLiteMetadataStore.AddArgs) (now : String) : Bool × List FileRecord :=
  match SQLiteMetadataStore.file_exists files a.file_hash with
  | some _ => (false, files)
  | none =>
    (true, files ++ [{
        file_id := a.file_id, file_name := a.file_name, file_hash := a.file_hash,
        file_size := a.file_size, file_type := a.file_type,
        sharepoint_path := a.sharepoint_path,
        sharepoint_modified := a.sharepoint_modified,
        blob_url := none, blob_name := none,
        download_timestamp := some now, upload_timestamp := none,
        status := "pending", error_message := none, retry_count := 0,
        metadata := a.metadata }])

/-- `SQLiteMetadataStore.update_file_status` (src/etl/utils.py lines 217-264):
`UPDATE files SET ... WHERE file_hash = ?`.  The status is overwritten
unconditionally; `upload_timestamp` is stamped when the new status is
`"embedded"`; `blob_url`, `blob_name` and `error_message` are written only
when truthy, and a truthy `error_message` also bumps `retry_count`. -/
def SQLiteMetadataStore.update_file_status (files : List FileRecord)
    (file_hash status : String) (blob_url blob_name error_message : Option String)
    (now : String) : List FileRecord :=
  files.map fun r =>
    if r.file_hash = file_hash then
      { r with
        status := status,
        upload_timestamp := if status = "embedded" then some now else r.upload_timestamp,
        blob_url := if truthy blob_url then blob_url else r.blob_url,
        blob_name := if truthy blob_name then blob_name else r.blob_name,
        error_message := if truthy error_message then error_message else r.error_message,
        retry_count := if truthy error_message then r.retry_count + 1 else r.retry_count }
    else r

/-- `SQLiteMetadataStore.add_embedding` (src/etl/utils.py lines 266-298):
inserts one row with `qdrant_uploaded = 1`. -/
def SQLiteMetadataStore.add_embedding (embeddings : List EmbeddingRecord)
    (embedding_id file_id : String) (page_number : Nat) (vector_id : String)
    (embedding_dimension tokens_count : Nat) (now : String) : List EmbeddingRecord :=
  embeddings ++ [{
    embedding_id := embedding_id, file_id := file_id, page_number := page_number,
    vector_id := vector_id, embedding_dimension := embedding_dimension,
    tokens_count := tokens_count, processing_timestamp := now, qdrant_uploaded := true }]

/-- `SQLiteMetadataStore.create_batch` (src/etl/utils.py lines 320-338):
inserts a batch row with zero counters and status `'processing'`. -/
def SQLiteMetadataStore.create_batch (batches : List BatchRecord)
    (batch_id : String) (total_files : Nat) (now : String) : List BatchRecord :=
  batches ++ [{
    batch_id := batch_id, batch_start_time := now, batch_end_time := none,
    total_files := total_files, successful_files := 0, failed_files := 0,
    status := "processing", error_summary := none }]

/-- `SQLiteMetadataStore.update_batch` (src/etl/utils.py lines 340-368):
`UPDATE processing_batches SET batch_end_time = ?, ... WHERE batch_id = ?`. -/
def SQLiteMetadataStore.update_batch (batches : List BatchRecord)
    (batch_id : String) (successful_files failed_files : Nat) (status : String)
    (error_summary : Option String) (now : String) : List BatchRecord :=
  batches.map fun b =>
    if b.batch_id = batch_id then
      { b with
        batch_end_time := some now, successful_files := successful_files,
        failed_files := failed_files, status := status,
        error_summary := error_summary }
    else b

/-! ### Data model: `file_tracking` table of FileTracker (src/utils/pipeline_utils.py lines 48-67) -/

structure TrackRecord where
  file_id : String
  file_name : String
  file_path : String
  file_hash : String
  file_size : Nat
  last_modified : Option String
  processing_timestamp : Option String
  completion_timestamp : Option String
  status : String
  blob_url : Option String
  blob_name : Option String
  vector_ids : Option (List String)
  error_message : Option String
  retry_count : Nat
  metadata : Option String
deriving Repr, DecidableEq

/-- Arguments of `FileTracker.add_file` (src/utils/pipeline_utils.py lines 120-129). -/
structure FileTracker.AddArgs where
  file_id : String
  file_name : String
  file_path : String
  file_hash : String
  file_size : Nat
  last_modified : Option String
  metadata : Option String
deriving Repr, DecidableEq

/-- `FileTracker.file_exists` (src/utils/pipeline_utils.py lines 98-118). -/
def FileTracker.file_exists (files : List TrackRecord) (file_hash : String) :
    Option TrackRecord :=
  files.find? (fun r => r.file_hash == file_hash)

/-- `FileTracker.add_file` (src/utils/pipeline_utils.py lines 120-169): the
same duplicate check as the metadata store, inserting with status
`'pending'` and `retry_count` 0 when the hash is new. -/
def FileTracker.add_file (files : List TrackRecord) (a : FileTracker.AddArgs) :
    Bool × List TrackRecord :=
  match FileTracker.file_exists files a.file_hash with
  | some _ => (false, files)
  | none =>
    (true, files ++ [{
        file_id := a.file_id, file_name := a.file_name, file_path := a.file_path,
        file_hash := a.file_hash, file_size := a.file_size,
        last_modified := a.last_modified,
        processing_timestamp := none, completion_timestamp := none,
        status := "pending", blob_url := none, blob_name := none,
        vector_ids := none, error_message := none, retry_count := 0,
        metadata := a.metadata }])

/-- `FileTracker.update_status` (src/utils/pipeline_utils.py lines 171-231):
status overwritten unconditionally; `processing_timestamp` respectively
`completion_timestamp` stamped when the new status is `"processing"` or
`"completed"`; optional fields written only when truthy, with a truthy
`error_message` bumping `retry_count`. -/
def FileTracker.update_status (files : List TrackRecord)
    (file_hash status : String) (blob_url blob_name : Option String)
    (vector_ids : Option (List String)) (error_message : Option String)
    (now : String) : List TrackRecord :=
  files.map fun r =>
    if r.file_hash = file_hash then
      { r with
        status := status,
        processing_timestamp :=
          if status = "processing" then some now else r.processing_timestamp,
        completion_timestamp :=
          if status = "completed" then some now else r.completion_timestamp,
        blob_url := if truthy blob_url then blob_url else r.blob_url,
        blob_name := if truthy blob_name then blob_name else r.blob_name,
        vector_ids := if truthyList vector_ids then vector_ids else r.vector_ids,
        error_message := if truthy error_message then error_message else r.error_message,
        retry_count := if truthy error_message then r.retry_count + 1 else r.retry_count }
    else r

/-- `FileTracker.get_failed_files` (src/utils/pipeline_utils.py lines 257-278):
`SELECT * FROM file_tracking WHERE status = 'failed' AND retry_count < ?`. -/
def FileTracker.get_failed_files (files : List TrackRecord) (max_retries : Nat) :
    List TrackRecord :=
  files.filter (fun r => r.status == "failed" && decide (r.retry_count < max_retries))

/-- `FileTracker.reset_processing_files` (src/utils/pipeline_utils.py lines
315-327): `UPDATE file_tracking SET status = 'pending' WHERE status =
'processing'`.  The Python function has no `return` statement, so besides
the new table state it yields `None`; the affected-row count `updated` is
only logged.  The second component models that return value. -/
def FileTracker.reset_processing_files (files : List TrackRecord) :
    List TrackRecord × Option Nat :=
  (files.map (fun r => if r.status = "processing" then { r with status := "pending" } else r),
   none)

/-- Number of rows of the `files` table carrying a given content hash. -/
def countByHash (files : List FileRecord) (file_hash : String) : Nat :=
  (files.filter (fun r => r.file_hash == file_hash)).length

/-- Iterated registration of the same fingerprint: `k` successive
`SQLiteMetadataStore.add_file` calls with identical arguments. -/
def SQLiteMetadataStore.registerRepeatedly (files : List FileRecord)
    (a : SQLiteMetadataStore.AddArgs) (now : String) : Nat → List FileRecord
  | 0 => files
  | k + 1 =>
    (SQLiteMetadataStore.add_file
      (SQLiteMetadataStore.registerRepeatedly files a now k) a now).2

/-! ### Hasher (src/etl/utils.py lines 20-58) -/

/-- State of `hashlib.new(algorithm)` before any `update`: the absorbed byte
sequence is empty.  A digest is a pure function of the absorbed bytes, so
the state is modelled as the list of bytes fed to `update` so far. -/
def hashInit : List Nat := []

/-- One `hash_func.update(chunk)` call: the chunk's bytes are appended to
the absorbed stream. -/
def hashUpdate (st chunk : List Nat) : List Nat := st ++ chunk

/-- Successive chunks produced by `iter(lambda: f.read(chunk_size), b"")`
over a file whose content is `l`: reads of `chunk_size` bytes until the
read comes back empty (with `chunk_size = 0` the very first read is `b""`
and no chunk is produced). -/
def chunksOf (n : Nat) (l : List Nat) : List (List Nat) :=
  if n = 0 ∨ l = [] then [] else l.take n :: chunksOf n (l.drop n)
termination_by l.length
decreasing_by
  rename_i h
  push_neg at h
  have hl : 0 < l.length := List.length_pos.mpr h.2
  have hn : 0 < n := Nat.pos_of_ne_zero h.1
  simpa [List.length_drop] using Nat.sub_lt hl hn

/-- `FileHasher.calculate_hash` (src/etl/utils.py lines 23-42): folds the
file's chunks into the hash state and returns the digest.  `H` is the
hex-digest function of the chosen algorithm, a pure function of the
absorbed byte stream. -/
def FileHasher.calculate_hash (H : List Nat → String) (content : List Nat)
    (chunk_size : Nat) : String :=
  H ((chunksOf chunk_size content).foldl hashUpdate hashInit)

/-- `FileHasher.calculate_hash_from_bytes` (src/etl/utils.py lines 44-58):
one `update` call with the whole content, then the digest. -/
def FileHasher.calculate_hash_from_bytes (H : List Nat → String)
    (data : List Nat) : String :=
  H (hashUpdate hashInit data)

/-! ### Document processors and the ETL pipeline (src/etl/pipeline.py) -/

/-- Python `str.lower()`, character by character over the string's data. -/
def strLower (s : String) : String :=
  { data := s.data.map Char.toLower }

/-- Python `str.endswith(pat)`: `pat`'s characters are a suffix of `s`'s. -/
def strEndsWith (s pat : String) : Bool :=
  pat.data.isSuffixOf s.data

/-- `PDFProcessor.can_process` (src/etl/pipeline.py line 64):
`file_path.lower().endswith('.pdf')`. -/
def PDFProcessor.can_process (file_path : String) : Bool :=
  strEndsWith (strLower file_path) ".pdf"

/-- `ImageProcessor.can_process` (src/etl/pipeline.py lines 78-81):
`file_path.lower().endswith(SUPPORTED_FORMATS)`. -/
def ImageProcessor.can_process (file_path : String) : Bool :=
  [".png", ".jpg", ".jpeg", ".bmp", ".tiff", ".webp"].any
    (fun e => strEndsWith (strLower file_path) e)

inductive ProcKind where
  | pdf
  | image
deriving Repr, DecidableEq

/-- `DocumentProcessorFactory.get_processor` (src/etl/pipeline.py lines
96-118): first registered processor whose `can_process` accepts the path,
in order `[PDFProcessor, ImageProcessor]`, else `None`. -/
def DocumentProcessorFactory.get_processor (file_path : String) : Option ProcKind :=
  if PDFProcessor.can_process file_path then some ProcKind.pdf
  else if ImageProcessor.can_process file_path then some ProcKind.image
  else none

/-- `Path(file_name).suffix` for an ordinary file name: the final
dot-separated extension including the dot, `""` when the name has no dot. -/
def suffixOf (file_name : String) : String :=
  let parts := file_name.data.splitOn '.'
  if parts.length ≤ 1 then "" else String.mk ('.' :: parts.getLastD [])

/-- Per-page outcome of `ColPaliEmbeddingGenerator.generate_embedding`
(src/etl/pipeline.py lines 177-217), keeping the fields the tracking layer
consumes: the page number passed in and the token count and dimension read
off the produced tensor. -/
structure EmbResult where
  page_number : Nat
  tokens_count : Nat
  embedding_dimension : Nat
deriving Repr, DecidableEq

/-- Oracles for the external adapters touched while one file flows through
`ETLPipeline.process_file`: each field holds the value the adapter call
returns, or the message of the exception it raises.  `convert` is the page
count of `processor.process`; `embed` maps a page number to the token
count and dimension of its embedding; `vecId`/`embId` are the
`uuid.uuid4()` draws for the i-th vector and embedding row. -/
structure FileEnv where
  file_id : String
  upload : Except String String
  convert : Except String Nat
  embed : Nat → Except String (Nat × Nat)
  upsert : Except String Unit
  vecId : Nat → String
  embId : Nat → String

/-- Combined store state: the three tables of SQLiteMetadataStore. -/
structure Store where
  files : List FileRecord
  embeddings : List EmbeddingRecord
  batches : List BatchRecord
deriving Repr, DecidableEq

def Store.add_file (s : Store) (a : SQLiteMetadataStore.AddArgs) (now : String) :
    Bool × Store :=
  let r := SQLiteMetadataStore.add_file s.files a now
  (r.1, { s with files := r.2 })

def Store.update_file_status (s : Store) (file_hash status : String)
    (blob_url blob_name error_message : Option String) (now : String) : Store :=
  { s with files := (SQLiteMetadataStore.update_file_status s.files file_hash status
      blob_url blob_name error_message now) }

def Store.add_embedding (s : Store) (embedding_id file_id : String)
    (page_number : Nat) (vector_id : String) (embedding_dimension tokens_count : Nat)
    (now : String) : Store :=
  { s with embeddings := (SQLiteMetadataStore.add_embedding s.embeddings embedding_id
      file_id page_number vector_id embedding_dimension tokens_count now) }

def Store.create_batch (s : Store) (batch_id : String) (total_files : Nat)
    (now : String) : Store :=
  { s with batches := SQLiteMetadataStore.create_batch s.batches batch_id total_files now }

def Store.update_batch (s : Store) (batch_id : String)
    (successful_files failed_files : Nat) (status : String)
    (error_summary : Option String) (now : String) : Store :=
  { s with batches := (SQLiteMetadataStore.update_batch s.batches batch_id
      successful_files failed_files status error_summary now) }

/-- Arguments of `ETLPipeline.process_file` (src/etl/pipeline.py lines 393-400). -/
structure FileArgs where
  file_path : String
  file_name : String
  sharepoint_path : String
  file_hash : String
  file_size : Nat
deriving Repr, DecidableEq

/-- Per-file result dictionary returned by `ETLPipeline.process_file` and
collected by `process_batch`; absent keys are `none`. -/
structure FileResult where
  status : String
  file_id : Option String
  file_name : String
  pages_processed : Option Nat
  vector_ids : Option (List String)
  blob_url : Option String
  error : Option String
  reason : Option String
deriving Repr, DecidableEq

/-- `BLOB_FOLDER_PREFIX` default of the config (src/etl/config.py line 33). -/
def blobFolder : String := "etl-documents"

/-- STEP 4 loop of `process_file` (src/etl/pipeline.py lines 463-466):
`generate_embedding(image, page_num)` for `page_num` in `k, k+1, ...` over
`count` remaining pages; the first raised exception aborts the loop. -/
def ETLPipeline.embedPages (env : FileEnv) : Nat → Nat → Except String (List EmbResult)
  | _, 0 => .ok []
  | k, count + 1 =>
    match env.embed k with
    | .error e => .error e
    | .ok td =>
      match ETLPipeline.embedPages env (k + 1) count with
      | .error e => .error e
      | .ok rest =>
        .ok ({ page_number := k, tokens_count := td.1, embedding_dimension := td.2 } :: rest)

/-- The `except` branch of `process_file` (src/etl/pipeline.py lines
505-516): a `failed` status update carrying the error message, and the
`{"status": "failed", ...}` result. -/
def ETLPipeline.failResult (s : Store) (a : FileArgs) (now e : String) :
    FileResult × Store :=
  ({ status := "failed", file_id := none, file_name := a.file_name,
     pages_processed := none, vector_ids := none, blob_url := none,
     error := some e, reason := none },
   Store.update_file_status s a.file_hash "failed" none none (some e) now)

/-- Final loop of `process_file` (src/etl/pipeline.py lines 485-493): one
`add_embedding` per `(page_num, vector_id)` of `enumerate(vector_ids, 1)`.
The dimension and token count passed in are those of `embeddings[0]`,
evaluated by the caller. -/
def ETLPipeline.recordEmbeddings (env : FileEnv) (file_id : String)
    (dim tokens : Nat) (now : String) (s : Store) : List (Nat × String) → Store
  | [] => s
  | p :: ps =>
    ETLPipeline.recordEmbeddings env file_id dim tokens now
      (Store.add_embedding s (env.embId p.1) file_id p.1 p.2 dim tokens now) ps

/-- `ETLPipeline.process_file` (src/etl/pipeline.py lines 393-516): track →
blob upload → dispatch converter → convert → embed pages → upsert →
finalize, with every adapter exception routed to the `except` branch. -/
def ETLPipeline.process_file (s : Store) (env : FileEnv) (a : FileArgs)
    (now : String) : FileResult × Store :=
  let file_id := env.file_id
  let file_type := suffixOf a.file_name
  let s1 := (Store.add_file s
    { file_id := file_id, file_name := a.file_name, file_hash := a.file_hash,
      file_size := a.file_size, file_type := file_type,
      sharepoint_path := a.sharepoint_path, sharepoint_modified := none,
      metadata := none } now).2
  match env.upload with
  | .error e => ETLPipeline.failResult s1 a now e
  | .ok blob_url =>
    let blob_name := blobFolder ++ "/" ++ file_id ++ "_" ++ a.file_name
    let s2 := Store.update_file_status s1 a.file_hash "uploaded"
      (some blob_url) (some blob_name) none now
    match DocumentProcessorFactory.get_processor a.file_path with
    | none => ETLPipeline.failResult s2 a now
        ("No processor found for file type: " ++ file_type)
    | some _ =>
      match env.convert with
      | .error e => ETLPipeline.failResult s2 a now e
      | .ok pageCount =>
        let s3 := Store.update_file_status s2 a.file_hash "processing" none none none now
        match ETLPipeline.embedPages env 1 pageCount with
        | .error e => ETLPipeline.failResult s3 a now e
        | .ok embs =>
          match env.upsert with
          | .error e => ETLPipeline.failResult s3 a now e
          | .ok _ =>
            let vector_ids := (List.range embs.length).map (fun i => env.vecId (i + 1))
            let s4 := Store.update_file_status s3 a.file_hash "embedded" none none none now
            let s5 := match embs.head? with
              | none => s4
              | some e0 => ETLPipeline.recordEmbeddings env file_id
                  e0.embedding_dimension e0.tokens_count now s4
                  (List.enumFrom 1 vector_ids)
            ({ status := "success", file_id := some file_id, file_name := a.file_name,
               pages_processed := some embs.length, vector_ids := some vector_ids,
               blob_url := some blob_url, error := none, reason := none }, s5)

/-- One input of `ETLPipeline.process_batch` plus its adapter oracles:
`download` covers the download-and-hash phase preceding the duplicate
check (its error is the exception message caught by the batch loop), and
`hash` is the value `FileHasher.calculate_hash` yields for the file. -/
structure BatchFile where
  name : String
  server_relative_url : String
  size : Nat
  download : Except String Unit
  hash : String
  env : FileEnv

/-- Loop state of the `process_batch` file loop. -/
structure BatchAcc where
  store : Store
  results : List FileResult
  successful : Nat
  failed : Nat
  skipped : Nat

/-- Temp directory drawn by `tempfile.TemporaryDirectory()`; files are
downloaded to `temp_dir/file_name`. -/
def tempDir : String := "/tmp/etl"

/-- Body of the `for file_info in file_list` loop of `process_batch`
(src/etl/pipeline.py lines 544-591): a download failure is caught and
counted failed; a known hash is skipped; otherwise `process_file` runs and
its result is counted by status. -/
def ETLPipeline.batchStep (skip_duplicates : Bool) (now : String)
    (acc : BatchAcc) (f : BatchFile) : BatchAcc :=
  match f.download with
  | .error e =>
    { acc with
      failed := acc.failed + 1,
      results := acc.results ++ [{
        status := "failed", file_id := none, file_name := f.name,
        pages_processed := none, vector_ids := none, blob_url := none,
        error := some e, reason := none }] }
  | .ok _ =>
    if skip_duplicates && (SQLiteMetadataStore.file_exists acc.store.files f.hash).isSome then
      { acc with
        skipped := acc.skipped + 1,
        results := acc.results ++ [{
          status := "skipped", file_id := none, file_name := f.name,
          pages_processed := none, vector_ids := none, blob_url := none,
          error := none, reason := some "duplicate" }] }
    else
      let rs := ETLPipeline.process_file acc.store f.env
        { file_path := tempDir ++ "/" ++ f.name, file_name := f.name,
          sharepoint_path := f.server_relative_url, file_hash := f.hash,
          file_size := f.size } now
      if rs.1.status = "success" then
        { store := rs.2, results := acc.results ++ [rs.1],
          successful := acc.successful + 1, failed := acc.failed,
          skipped := acc.skipped }
      else
        { store := rs.2, results := acc.results ++ [rs.1],
          successful := acc.successful, failed := acc.failed + 1,
          skipped := acc.skipped }

/-- Summary dictionary returned by `process_batch` (src/etl/pipeline.py
lines 603-610). -/
structure BatchSummary where
  batch_id : String
  total_files : Nat
  successful : Nat
  failed : Nat
  skipped : Nat
  results : List FileResult
deriving Repr, DecidableEq

/-- `ETLPipeline.process_batch` (src/etl/pipeline.py lines 518-610):
creates the batch row, folds the file loop, then stamps the batch row
`completed` when nothing failed and `partial` otherwise. -/
def ETLPipeline.process_batch (s : Store) (batch_id : String)
    (file_list : List BatchFile) (skip_duplicates : Bool) (now : String) :
    BatchSummary × Store :=
  let s0 := Store.create_batch s batch_id file_list.length now
  let acc := file_list.foldl (ETLPipeline.batchStep skip_duplicates now)
    { store := s0, results := [], successful := 0, failed := 0, skipped := 0 }
  let sF := Store.update_batch acc.store batch_id acc.successful acc.failed
    (if acc.failed = 0 then "completed" else "partial") none now
  ({ batch_id := batch_id, total_files := file_list.length,
     successful := acc.successful, failed := acc.failed, skipped := acc.skipped,
     results := acc.results }, sF)

/-! ### Concrete sample inputs used by counterexamples and witnesses -/

def samplePendingRec : FileRecord :=
  { file_id := "f1", file_name := "a.pdf", file_hash := "h1", file_size := 10,
    file_type := ".pdf", sharepoint_path := "/sp/a.pdf", sharepoint_modified := none,
    blob_url := none, blob_name := none, download_timestamp := none,
    upload_timestamp := none, status := "pending", error_message := none,
    retry_count := 0, metadata := none }

def sampleTrackPendingRec : TrackRecord :=
  { file_id := "f1", file_name := "a.pdf", file_path := "/sp/a.pdf",
    file_hash := "h1", file_size := 10, last_modified := none,
    processing_timestamp := none, completion_timestamp := none,
    status := "pending", blob_url := none, blob_name := none, vector_ids := none,
    error_message := none, retry_count := 0, metadata := none }

def sampleTrackProcessingRec : TrackRecord :=
  { sampleTrackPendingRec with file_id := "f2", file_hash := "h2", status := "processing" }

def sqliteArgsH1 : SQLiteMetadataStore.AddArgs :=
  { file_id := "f9", file_name := "a.pdf", file_hash := "h1", file_size := 10,
    file_type := ".pdf", sharepoint_path := "/sp/a.pdf", sharepoint_modified := none,
    metadata := none }

def trackerArgsH1 : FileTracker.AddArgs :=
  { file_id := "f9", file_name := "a.pdf", file_path := "/sp/a.pdf",
    file_hash := "h1", file_size := 10, last_modified := none, metadata := none }

def emptyStore : Store := { files := [], embeddings := [], batches := [] }

def argsPdf : FileArgs :=
  { file_path := "/tmp/etl/a.pdf", file_name := "a.pdf",
    sharepoint_path := "/sp/a.pdf", file_hash := "h1", file_size := 10 }

/-- Environment of a 2-page file whose first page embeds to 5 tokens and
whose second page embeds to 7 tokens, both of dimension 128; every adapter
call succeeds. -/
def envTwoPages : FileEnv :=
  { file_id := "doc1", upload := .ok "https://blob.example/a", convert := .ok 2,
    embed := fun k => if k = 1 then .ok (5, 128) else .ok (7, 128),
    upsert := .ok (), vecId := fun i => "v" ++ toString i,
    embId := fun i => "e" ++ toString i }

/-- Environment whose converter accepts the file but yields zero pages. -/
def envZeroPages : FileEnv := { envTwoPages with convert := .ok 0 }

/-- Environment whose blob upload raises. -/
def envUploadFail : FileEnv := { envTwoPages with upload := .error "blob upload failed" }

/-- Initial loop state of the `process_batch` file loop, after the batch
row has been created. -/
def batchAccInit (s : Store) (bid : String) (n : Nat) (now : String) : BatchAcc :=
  { store := Store.create_batch s bid n now, results := [], successful := 0,
    failed := 0, skipped := 0 }

/-- The batch row inserted by `create_batch`. -/
def createdBatchRow (bid : String) (n : Nat) (now : String) : BatchRecord :=
  { batch_id := bid, batch_start_time := now, batch_end_time := none,
    total_files := n, successful_files := 0, failed_files := 0,
    status := "processing", error_summary := none }

/-! ### Helper lemmas -/

theorem map_id_of_mem {α : Type} {f : α → α} :
    ∀ {l : List α}, (∀ a ∈ l, f a = a) → l.map f = l := by
  intro l
  induction l with
  | nil => intro _; rfl
  | cons x xs ih =>
    intro h
    simp only [List.map_cons, h x (by simp)]
    rw [ih (fun a ha => h a (by simp [ha]))]

theorem forall2_map_self {α : Type} (f : α → α) (R : α → α → Prop)
    (h : ∀ a, R a (f a)) : ∀ (l : List α), List.Forall₂ R l (l.map f) := by
  intro l
  induction l with
  | nil => exact List.Forall₂.nil
  | cons x xs ih => exact List.Forall₂.cons (h x) ih

theorem map_idem {α : Type} {f : α → α} (hf : ∀ a, f (f a) = f a) :
    ∀ (l : List α), (l.map f).map f = l.map f := by
  intro l
  induction l with
  | nil => rfl
  | cons x xs ih => simp only [List.map_cons, hf x, ih]

theorem chunksOf_foldl_append (n : Nat) (hn : 0 < n) :
    ∀ (m : Nat) (l : List Nat), l.length = m →
      ∀ acc, (chunksOf n l).foldl hashUpdate acc = acc ++ l := by
  intro m
  induction m using Nat.strong_induction_on with
  | _ m ih =>
    intro l hl acc
    rw [chunksOf]
    split
    · rename_i h
      rcases h with h | h
      · omega
      · subst h; simp
    · rename_i h
      push_neg at h
      have hpos : 0 < l.length := List.length_pos.mpr h.2
      have hlen : (l.drop n).length < m := by
        subst hl
        simp only [List.length_drop]
        omega
      rw [List.foldl_cons, ih (l.drop n).length hlen (l.drop n) rfl]
      simp [hashUpdate, List.append_assoc]

theorem sqlite_file_exists_of_mem {s : List FileRecord} {h : String}
    (hex : ∃ r ∈ s, r.file_hash = h) :
    ∃ r, SQLiteMetadataStore.file_exists s h = some r := by
  rcases hex with ⟨r, hr, hh⟩
  have : (SQLiteMetadataStore.file_exists s h).isSome := by
    unfold SQLiteMetadataStore.file_exists
    rw [List.find?_isSome]
    exact ⟨r, hr, by simp [hh]⟩
  exact Option.isSome_iff_exists.mp this

theorem tracker_file_exists_of_mem {s : List TrackRecord} {h : String}
    (hex : ∃ r ∈ s, r.file_hash = h) :
    ∃ r, FileTracker.file_exists s h = some r := by
  rcases hex with ⟨r, hr, hh⟩
  have : (FileTracker.file_exists s h).isSome := by
    unfold FileTracker.file_exists
    rw [List.find?_isSome]
    exact ⟨r, hr, by simp [hh]⟩
  exact Option.isSome_iff_exists.mp this

theorem sqlite_add_file_dup {s : List FileRecord} {a : SQLiteMetadataStore.AddArgs}
    (now : String) (hex : ∃ r ∈ s, r.file_hash = a.file_hash) :
    SQLiteMetadataStore.add_file s a now = (false, s) := by
  rcases sqlite_file_exists_of_mem hex with ⟨r, hr⟩
  unfold SQLiteMetadataStore.add_file
  rw [hr]

theorem tracker_add_file_dup {s : List TrackRecord} {a : FileTracker.AddArgs}
    (hex : ∃ r ∈ s, r.file_hash = a.file_hash) :
    FileTracker.add_file s a = (false, s) := by
  rcases tracker_file_exists_of_mem hex with ⟨r, hr⟩
  unfold FileTracker.add_file
  rw [hr]

theorem sqlite_file_exists_of_count_zero {s : List FileRecord} {h : String}
    (h0 : countByHash s h = 0) : SQLiteMetadataStore.file_exists s h = none := by
  unfold countByHash at h0
  unfold SQLiteMetadataStore.file_exists
  rw [List.find?_eq_none]
  intro x hx hpx
  have hmem : x ∈ s.filter (fun r => r.file_hash == h) :=
    List.mem_filter.mpr ⟨hx, hpx⟩
  have := List.length_pos.mpr (List.ne_nil_of_mem hmem)
  omega

theorem countByHash_add_of_zero {s : List FileRecord}
    {a : SQLiteMetadataStore.AddArgs} (now : String)
    (h0 : countByHash s a.file_hash = 0) :
    countByHash (SQLiteMetadataStore.add_file s a now).2 a.file_hash = 1 := by
  unfold SQLiteMetadataStore.add_file
  rw [sqlite_file_exists_of_count_zero h0]
  unfold countByHash at h0 ⊢
  rw [List.filter_append, List.length_append,
    List.length_eq_zero.mp h0]
  simp

theorem exists_of_countByHash_one {s : List FileRecord} {h : String}
    (h1 : countByHash s h = 1) : ∃ r ∈ s, r.file_hash = h := by
  unfold countByHash at h1
  have hne : s.filter (fun r => r.file_hash == h) ≠ [] := by
    intro hnil
    rw [hnil] at h1
    simp at h1
  rcases List.exists_mem_of_ne_nil _ hne with ⟨r, hr⟩
  rcases List.mem_filter.mp hr with ⟨hm, hp⟩
  exact ⟨r, hm, by simpa using hp⟩

theorem countByHash_register {s : List FileRecord}
    {a : SQLiteMetadataStore.AddArgs} (now : String)
    (h0 : countByHash s a.file_hash = 0) :
    ∀ k, countByHash
      (SQLiteMetadataStore.registerRepeatedly s a now (k + 1)) a.file_hash = 1 := by
  intro k
  induction k with
  | zero =>
    show countByHash
      (SQLiteMetadataStore.add_file
        (SQLiteMetadataStore.registerRepeatedly s a now 0) a now).2 a.file_hash = 1
    exact countByHash_add_of_zero now h0
  | succ k ih =>
    show countByHash
      (SQLiteMetadataStore.add_file
        (SQLiteMetadataStore.registerRepeatedly s a now (k + 1)) a now).2
        a.file_hash = 1
    rw [sqlite_add_file_dup now (exists_of_countByHash_one ih)]
    exact ih

/-! ### Claim theorems -/

/-- C9: for every byte content and every positive chunk size, the streamed
chunked fingerprint (`FileHasher.calculate_hash`, folding fixed-size chunks
into the hash state) equals the one-shot fingerprint of the whole content
(`FileHasher.calculate_hash_from_bytes`) under the same digest function, so
identical content yields an identical digest regardless of chunking. -/
theorem claim_C9_hash_chunking (H : List Nat → String) (content : List Nat)
    (chunk_size : Nat) (hpos : 0 < chunk_size) :
    FileHasher.calculate_hash H content chunk_size =
      FileHasher.calculate_hash_from_bytes H content := by
  unfold FileHasher.calculate_hash FileHasher.calculate_hash_from_bytes
  rw [chunksOf_foldl_append chunk_size hpos content.length content rfl hashInit]
  rfl

/-- Witness for C9 at content `[1, 2, 3, 4, 5]` and chunk size 2. -/
theorem claim_C9_witness :
    0 < 2 ∧
    FileHasher.calculate_hash (fun l => toString l) [1, 2, 3, 4, 5] 2 =
      FileHasher.calculate_hash_from_bytes (fun l => toString l) [1, 2, 3, 4, 5] :=
  ⟨by decide, claim_C9_hash_chunking (fun l => toString l) [1, 2, 3, 4, 5] 2 (by decide)⟩

/-- C1: registering a content hash that already has a FileRecord returns
`False` and leaves every stored record unchanged, in both
`SQLiteMetadataStore.add_file` and `FileTracker.add_file`; consequently,
starting from a store without the hash, any positive number of
registrations of the same fingerprint leaves exactly one FileRecord with
that hash. -/
theorem claim_C1_dedup (s1 : List FileRecord) (a1 : SQLiteMetadataStore.AddArgs)
    (t1 : String) (h1 : ∃ r ∈ s1, r.file_hash = a1.file_hash)
    (s2 : List TrackRecord) (a2 : FileTracker.AddArgs)
    (h2 : ∃ r ∈ s2, r.file_hash = a2.file_hash)
    (s3 : List FileRecord) (a3 : SQLiteMetadataStore.AddArgs) (t3 : String)
    (k : Nat) (h3 : countByHash s3 a3.file_hash = 0) :
    SQLiteMetadataStore.add_file s1 a1 t1 = (false, s1) ∧
    FileTracker.add_file s2 a2 = (false, s2) ∧
    countByHash (SQLiteMetadataStore.registerRepeatedly s3 a3 t3 (k + 1))
      a3.file_hash = 1 :=
  ⟨sqlite_add_file_dup t1 h1, tracker_add_file_dup h2, countByHash_register t3 h3 k⟩

/-- Witness for C1: a store already holding hash `"h1"` rejects a second
registration in both stores, and three registrations into an empty store
leave one record. -/
theorem claim_C1_witness :
    (∃ r ∈ [samplePendingRec], r.file_hash = sqliteArgsH1.file_hash) ∧
    (∃ r ∈ [sampleTrackPendingRec], r.file_hash = trackerArgsH1.file_hash) ∧
    countByHash [] sqliteArgsH1.file_hash = 0 ∧
    (SQLiteMetadataStore.add_file [samplePendingRec] sqliteArgsH1 "t"
        = (false, [samplePendingRec]) ∧
      FileTracker.add_file [sampleTrackPendingRec] trackerArgsH1
        = (false, [sampleTrackPendingRec]) ∧
      countByHash (SQLiteMetadataStore.registerRepeatedly [] sqliteArgsH1 "t" 3)
        sqliteArgsH1.file_hash = 1) :=
  ⟨by decide, by decide, by decide,
    claim_C1_dedup [samplePendingRec] sqliteArgsH1 "t" (by decide)
      [sampleTrackPendingRec] trackerArgsH1 (by decide)
      [] sqliteArgsH1 "t" 2 (by decide)⟩

/-- C10: a status update whose `file_hash` matches no stored record returns
normally and leaves both stores entirely unchanged. -/
theorem claim_C10_update_unknown_hash (s1 : List FileRecord) (fh1 st1 : String)
    (bu bn em : Option String) (t1 : String)
    (h1 : ∀ r ∈ s1, r.file_hash ≠ fh1)
    (s2 : List TrackRecord) (fh2 st2 : String) (bu2 bn2 : Option String)
    (v2 : Option (List String)) (em2 : Option String) (t2 : String)
    (h2 : ∀ r ∈ s2, r.file_hash ≠ fh2) :
    SQLiteMetadataStore.update_file_status s1 fh1 st1 bu bn em t1 = s1 ∧
    FileTracker.update_status s2 fh2 st2 bu2 bn2 v2 em2 t2 = s2 := by
  constructor
  · unfold SQLiteMetadataStore.update_file_status
    exact map_id_of_mem (fun r hr => if_neg (h1 r hr))
  · unfold FileTracker.update_status
    exact map_id_of_mem (fun r hr => if_neg (h2 r hr))

/-- Witness for C10: updating hash `"h9"` in singleton stores holding only
hash `"h1"` changes nothing. -/
theorem claim_C10_witness :
    (∀ r ∈ [samplePendingRec], r.file_hash ≠ "h9") ∧
    (∀ r ∈ [sampleTrackPendingRec], r.file_hash ≠ "h9") ∧
    (SQLiteMetadataStore.update_file_status [samplePendingRec] "h9" "completed"
        none none (some "boom") "t" = [samplePendingRec] ∧
      FileTracker.update_status [sampleTrackPendingRec] "h9" "completed"
        none none none (some "boom") "t" = [sampleTrackPendingRec]) :=
  ⟨by decide, by decide,
    claim_C10_update_unknown_hash [samplePendingRec] "h9" "completed"
      none none (some "boom") "t" (by decide)
      [sampleTrackPendingRec] "h9" "completed" none none none (some "boom") "t"
      (by decide)⟩

/-- C2 counterexample: the pair (pending → completed) is not in the claimed
transition table, yet both status-update operations overwrite the stored
status with `"completed"` and signal no error — there is no
`InvalidTransition` check anywhere in the code. -/
theorem claim_C2_counterexample :
    ((SQLiteMetadataStore.update_file_status [samplePendingRec] "h1" "completed"
        none none none "t").map (fun r => r.status) = ["completed"]) ∧
    samplePendingRec.status = "pending" ∧
    ((FileTracker.update_status [sampleTrackPendingRec] "h1" "completed"
        none none none none "t").map (fun r => r.status) = ["completed"]) ∧
    sampleTrackPendingRec.status = "pending" :=
  ⟨by decide, by decide, by decide, by decide⟩

/-- C2 amended: the status-update operations perform no transition-legality
check: every stored record whose `file_hash` matches has its status
unconditionally overwritten with the new status (there is no
`InvalidTransition` failure), and every non-matching record is left
unchanged — in both `SQLiteMetadataStore.update_file_status` and
`FileTracker.update_status`. -/
theorem claim_C2_amended (s1 : List FileRecord) (fh1 st1 : String)
    (bu bn em : Option String) (t1 : String)
    (s2 : List TrackRecord) (fh2 st2 : String) (bu2 bn2 : Option String)
    (v2 : Option (List String)) (em2 : Option String) (t2 : String) :
    List.Forall₂
      (fun r r' => r'.status = (if r.file_hash = fh1 then st1 else r.status) ∧
        (r.file_hash ≠ fh1 → r' = r))
      s1 (SQLiteMetadataStore.update_file_status s1 fh1 st1 bu bn em t1) ∧
    List.Forall₂
      (fun r r' => r'.status = (if r.file_hash = fh2 then st2 else r.status) ∧
        (r.file_hash ≠ fh2 → r' = r))
      s2 (FileTracker.update_status s2 fh2 st2 bu2 bn2 v2 em2 t2) := by
  constructor
  · unfold SQLiteMetadataStore.update_file_status
    apply forall2_map_self
    intro r
    by_cases hc : r.file_hash = fh1 <;> simp [hc]
  · unfold FileTracker.update_status
    apply forall2_map_self
    intro r
    by_cases hc : r.file_hash = fh2 <;> simp [hc]

/-- Witness for the amended C2 at a singleton store with hash `"h1"`. -/
theorem claim_C2_amended_witness :
    List.Forall₂
      (fun r r' => r'.status = (if r.file_hash = "h1" then "completed" else r.status) ∧
        (r.file_hash ≠ "h1" → r' = r))
      [samplePendingRec]
      (SQLiteMetadataStore.update_file_status [samplePendingRec] "h1" "completed"
        none none none "t") ∧
    List.Forall₂
      (fun r r' => r'.status = (if r.file_hash = "h1" then "completed" else r.status) ∧
        (r.file_hash ≠ "h1" → r' = r))
      [sampleTrackPendingRec]
      (FileTracker.update_status [sampleTrackPendingRec] "h1" "completed"
        none none none none "t") :=
  claim_C2_amended [samplePendingRec] "h1" "completed" none none none "t"
    [sampleTrackPendingRec] "h1" "completed" none none none none "t"

/-- C3 counterexample: a transition to the non-failed status `"completed"`
that carries an error message increments `retry_count` (to 1), and a
transition to `"failed"` without an error message leaves `retry_count`
unchanged (at 0) — `retry_count` tracks the presence of an error message,
not transitions to `failed`. -/
theorem claim_C3_counterexample :
    ((FileTracker.update_status [sampleTrackPendingRec] "h1" "completed"
        none none none (some "boom") "t").map (fun r => (r.status, r.retry_count))
      = [("completed", 1)]) ∧
    ((SQLiteMetadataStore.update_file_status [samplePendingRec] "h1" "failed"
        none none none "t").map (fun r => (r.status, r.retry_count))
      = [("failed", 0)]) :=
  ⟨by decide, by decide⟩

/-- C3 amended: in both stores, one status update increments `retry_count`
by exactly 1 on the matching records precisely when a non-empty error
message is supplied — regardless of the target status — and records that
message; a transition to `failed` without an error message leaves
`retry_count` unchanged.  `FileTracker.get_failed_files n` returns exactly
the records whose status is `failed` and whose `retry_count` is strictly
below `n`. -/
theorem claim_C3_amended (s1 : List FileRecord) (fh1 st1 : String)
    (bu bn em : Option String) (t1 : String)
    (s2 : List TrackRecord) (fh2 st2 : String) (bu2 bn2 : Option String)
    (v2 : Option (List String)) (em2 : Option String) (t2 : String) (n : Nat) :
    List.Forall₂
      (fun r r' =>
        r'.retry_count =
          (if r.file_hash = fh1 ∧ truthy em = true then r.retry_count + 1
           else r.retry_count) ∧
        r'.error_message =
          (if r.file_hash = fh1 ∧ truthy em = true then em else r.error_message))
      s1 (SQLiteMetadataStore.update_file_status s1 fh1 st1 bu bn em t1) ∧
    List.Forall₂
      (fun r r' =>
        r'.retry_count =
          (if r.file_hash = fh2 ∧ truthy em2 = true then r.retry_count + 1
           else r.retry_count) ∧
        r'.error_message =
          (if r.file_hash = fh2 ∧ truthy em2 = true then em2 else r.error_message))
      s2 (FileTracker.update_status s2 fh2 st2 bu2 bn2 v2 em2 t2) ∧
    (∀ r, r ∈ FileTracker.get_failed_files s2 n ↔
      r ∈ s2 ∧ r.status = "failed" ∧ r.retry_count < n) := by
  refine ⟨?_, ?_, ?_⟩
  · unfold SQLiteMetadataStore.update_file_status
    apply forall2_map_self
    intro r
    by_cases hc : r.file_hash = fh1 <;> by_cases he : truthy em = true <;>
      simp [hc, he]
  · unfold FileTracker.update_status
    apply forall2_map_self
    intro r
    by_cases hc : r.file_hash = fh2 <;> by_cases he : truthy em2 = true <;>
      simp [hc, he]
  · intro r
    unfold FileTracker.get_failed_files
    rw [List.mem_filter]
    simp [and_assoc]

/-- Witness for the amended C3: a `"completed"` update carrying message
`"boom"` on a matching record, and the failed-file listing over a
two-record store. -/
theorem claim_C3_amended_witness :
    List.Forall₂
      (fun r r' =>
        r'.retry_count =
          (if r.file_hash = "h1" ∧ truthy (some "boom") = true then r.retry_count + 1
           else r.retry_count) ∧
        r'.error_message =
          (if r.file_hash = "h1" ∧ truthy (some "boom") = true then some "boom"
           else r.error_message))
      [samplePendingRec]
      (SQLiteMetadataStore.update_file_status [samplePendingRec] "h1" "completed"
        none none (some "boom") "t") ∧
    List.Forall₂
      (fun r r' =>
        r'.retry_count =
          (if r.file_hash = "h1" ∧ truthy (some "boom") = true then r.retry_count + 1
           else r.retry_count) ∧
        r'.error_message =
          (if r.file_hash = "h1" ∧ truthy (some "boom") = true then some "boom"
           else r.error_message))
      [sampleTrackPendingRec]
      (FileTracker.update_status [sampleTrackPendingRec] "h1" "completed"
        none none none (some "boom") "t") ∧
    (∀ r, r ∈ FileTracker.get_failed_files [sampleTrackPendingRec] 3 ↔
      r ∈ [sampleTrackPendingRec] ∧ r.status = "failed" ∧ r.retry_count < 3) :=
  claim_C3_amended [samplePendingRec] "h1" "completed" none none (some "boom") "t"
    [sampleTrackPendingRec] "h1" "completed" none none none (some "boom") "t" 3

/-- C6 counterexample: `reset_processing_files` does move the single
`processing` record to `pending`, but the Python function has no `return`
statement, so the call yields `None` rather than the count of records
moved (which would be 1 here); the count is only logged. -/
theorem claim_C6_counterexample :
    ((FileTracker.reset_processing_files [sampleTrackProcessingRec]).1.map
        (fun r => r.status) = ["pending"]) ∧
    (FileTracker.reset_processing_files [sampleTrackProcessingRec]).2 = none :=
  ⟨by decide, by decide⟩

/-- C6 amended: one call to `reset_processing_files` sets the status of
every `processing` record to `pending` and leaves every record in any
other status entirely untouched; the call is idempotent (an immediate
second call changes nothing); it returns `None` — the moved-record count
is only logged, not returned. -/
theorem claim_C6_amended (s : List TrackRecord) :
    List.Forall₂
      (fun r r' =>
        (r.status = "processing" → r' = { r with status := "pending" }) ∧
        (r.status ≠ "processing" → r' = r))
      s (FileTracker.reset_processing_files s).1 ∧
    (FileTracker.reset_processing_files s).2 = none ∧
    (FileTracker.reset_processing_files
      (FileTracker.reset_processing_files s).1).1 =
      (FileTracker.reset_processing_files s).1 := by
  refine ⟨?_, rfl, ?_⟩
  · unfold FileTracker.reset_processing_files
    apply forall2_map_self
    intro r
    by_cases hc : r.status = "processing" <;> simp [hc]
  · unfold FileTracker.reset_processing_files
    apply map_idem
    intro r
    by_cases hc : r.status = "processing" <;> simp [hc]

/-- Witness for the amended C6 on a store with one `processing` and one
`pending` record. -/
theorem claim_C6_amended_witness :
    List.Forall₂
      (fun r r' =>
        (r.status = "processing" → r' = { r with status := "pending" }) ∧
        (r.status ≠ "processing" → r' = r))
      [sampleTrackProcessingRec, sampleTrackPendingRec]
      (FileTracker.reset_processing_files
        [sampleTrackProcessingRec, sampleTrackPendingRec]).1 ∧
    (FileTracker.reset_processing_files
      [sampleTrackProcessingRec, sampleTrackPendingRec]).2 = none ∧
    (FileTracker.reset_processing_files
      (FileTracker.reset_processing_files
        [sampleTrackProcessingRec, sampleTrackPendingRec]).1).1 =
      (FileTracker.reset_processing_files
        [sampleTrackProcessingRec, sampleTrackPendingRec]).1 :=
  claim_C6_amended [sampleTrackProcessingRec, sampleTrackPendingRec]

/-! ### Pipeline helper lemmas -/

theorem sqlite_add_file_hash_mem (files : List FileRecord)
    (a : SQLiteMetadataStore.AddArgs) (now : String) :
    ∃ r ∈ (SQLiteMetadataStore.add_file files a now).2, r.file_hash = a.file_hash := by
  unfold SQLiteMetadataStore.add_file
  cases hfe : SQLiteMetadataStore.file_exists files a.file_hash with
  | some r0 =>
    unfold SQLiteMetadataStore.file_exists at hfe
    refine ⟨r0, List.mem_of_find?_eq_some hfe, ?_⟩
    have := List.find?_some hfe
    simpa using this
  | none => exact ⟨_, List.mem_append_right _ (List.mem_singleton_self _), rfl⟩

theorem store_add_file_hash_mem (s : Store) (a : SQLiteMetadataStore.AddArgs)
    (now : String) :
    ∃ r ∈ (Store.add_file s a now).2.files, r.file_hash = a.file_hash := by
  simpa [Store.add_file] using sqlite_add_file_hash_mem s.files a now

theorem sqlite_update_hash_mem {files : List FileRecord} {h : String}
    (hex : ∃ r ∈ files, r.file_hash = h) (fh st : String)
    (bu bn em : Option String) (now : String) :
    ∃ r ∈ SQLiteMetadataStore.update_file_status files fh st bu bn em now,
      r.file_hash = h ∧ (h = fh → r.status = st) := by
  rcases hex with ⟨r0, hm, hh⟩
  unfold SQLiteMetadataStore.update_file_status
  by_cases hc : r0.file_hash = fh
  · refine ⟨_, List.mem_map_of_mem _ hm, ?_, ?_⟩
    · simpa [hc] using hh
    · intro _
      simp [hc]
  · refine ⟨_, List.mem_map_of_mem _ hm, ?_, ?_⟩
    · simpa [hc] using hh
    · intro heq
      exact absurd (hh.trans heq) hc

theorem store_update_hash_mem {s : Store} {h : String}
    (hex : ∃ r ∈ s.files, r.file_hash = h) (fh st : String)
    (bu bn em : Option String) (now : String) :
    ∃ r ∈ (Store.update_file_status s fh st bu bn em now).files,
      r.file_hash = h ∧ (h = fh → r.status = st) := by
  simpa [Store.update_file_status] using sqlite_update_hash_mem hex fh st bu bn em now

theorem store_update_hash_mem_weak {s : Store} {h : String}
    (hex : ∃ r ∈ s.files, r.file_hash = h) (fh st : String)
    (bu bn em : Option String) (now : String) :
    ∃ r ∈ (Store.update_file_status s fh st bu bn em now).files, r.file_hash = h := by
  rcases store_update_hash_mem hex fh st bu bn em now with ⟨r, hm, hh, _⟩
  exact ⟨r, hm, hh⟩

theorem store_update_failed_mem {s : Store} {h : String}
    (hex : ∃ r ∈ s.files, r.file_hash = h) (e now : String) :
    ∃ r ∈ (Store.update_file_status s h "failed" none none (some e) now).files,
      r.file_hash = h ∧ r.status = "failed" := by
  rcases store_update_hash_mem hex h "failed" none none (some e) now with ⟨r, hm, hh, hst⟩
  exact ⟨r, hm, hh, hst rfl⟩

theorem recordEmbeddings_batches (env : FileEnv) (file_id : String)
    (dim tokens : Nat) (now : String) :
    ∀ (pairs : List (Nat × String)) (s : Store),
      (ETLPipeline.recordEmbeddings env file_id dim tokens now s pairs).batches
        = s.batches := by
  intro pairs
  induction pairs with
  | nil => intro s; rfl
  | cons p ps ih =>
    intro s
    show (ETLPipeline.recordEmbeddings env file_id dim tokens now
      (Store.add_embedding s (env.embId p.1) file_id p.1 p.2 dim tokens now) ps).batches
        = s.batches
    rw [ih]
    rfl

theorem process_file_batches (s : Store) (env : FileEnv) (a : FileArgs)
    (now : String) :
    (ETLPipeline.process_file s env a now).2.batches = s.batches := by
  simp only [ETLPipeline.process_file]
  repeat' split
  all_goals
    simp [ETLPipeline.failResult, recordEmbeddings_batches,
      Store.update_file_status, Store.add_file]

theorem batchStep_results_length (skip : Bool) (now : String) (acc : BatchAcc)
    (f : BatchFile) :
    (ETLPipeline.batchStep skip now acc f).results.length = acc.results.length + 1 := by
  simp only [ETLPipeline.batchStep]
  cases hd : f.download with
  | error e => simp
  | ok u => split_ifs <;> simp

theorem batchStep_sum (skip : Bool) (now : String) (acc : BatchAcc) (f : BatchFile) :
    (ETLPipeline.batchStep skip now acc f).successful
        + (ETLPipeline.batchStep skip now acc f).failed
        + (ETLPipeline.batchStep skip now acc f).skipped
      = acc.successful + acc.failed + acc.skipped + 1 := by
  simp only [ETLPipeline.batchStep]
  cases hd : f.download with
  | error e => simp; omega
  | ok u => split_ifs <;> simp <;> omega

theorem batchStep_batches (skip : Bool) (now : String) (acc : BatchAcc)
    (f : BatchFile) :
    (ETLPipeline.batchStep skip now acc f).store.batches = acc.store.batches := by
  simp only [ETLPipeline.batchStep]
  cases hd : f.download with
  | error e => rfl
  | ok u => split_ifs <;> simp [process_file_batches]

theorem batch_fold_results (skip : Bool) (now : String) :
    ∀ (files : List BatchFile) (acc : BatchAcc),
      (List.foldl (ETLPipeline.batchStep skip now) acc files).results.length
        = acc.results.length + files.length := by
  intro files
  induction files with
  | nil => intro acc; simp
  | cons f fs ih =>
    intro acc
    rw [List.foldl_cons, ih, batchStep_results_length]
    simp
    omega

theorem batch_fold_sum (skip : Bool) (now : String) :
    ∀ (files : List BatchFile) (acc : BatchAcc),
      (List.foldl (ETLPipeline.batchStep skip now) acc files).successful
          + (List.foldl (ETLPipeline.batchStep skip now) acc files).failed
          + (List.foldl (ETLPipeline.batchStep skip now) acc files).skipped
        = acc.successful + acc.failed + acc.skipped + files.length := by
  intro files
  induction files with
  | nil => intro acc; simp
  | cons f fs ih =>
    intro acc
    rw [List.foldl_cons, ih, batchStep_sum]
    simp
    omega

theorem batch_fold_batches (skip : Bool) (now : String) :
    ∀ (files : List BatchFile) (acc : BatchAcc),
      (List.foldl (ETLPipeline.batchStep skip now) acc files).store.batches
        = acc.store.batches := by
  intro files
  induction files with
  | nil => intro acc; rfl
  | cons f fs ih =>
    intro acc
    rw [List.foldl_cons, ih, batchStep_batches]

theorem process_batch_results_len (s : Store) (bid : String)
    (files : List BatchFile) (skip : Bool) (now : String) :
    (ETLPipeline.process_batch s bid files skip now).1.results.length
      = files.length := by
  simp [ETLPipeline.process_batch, batch_fold_results]

theorem process_batch_sum_len (s : Store) (bid : String)
    (files : List BatchFile) (skip : Bool) (now : String) :
    (ETLPipeline.process_batch s bid files skip now).1.successful
        + (ETLPipeline.process_batch s bid files skip now).1.failed
        + (ETLPipeline.process_batch s bid files skip now).1.skipped
      = files.length := by
  simp [ETLPipeline.process_batch, batch_fold_sum]

theorem process_batch_batch_row (s : Store) (bid : String)
    (files : List BatchFile) (skip : Bool) (now : String) :
    ∃ b ∈ (ETLPipeline.process_batch s bid files skip now).2.batches,
      b.batch_id = bid ∧
      b.status = (if (ETLPipeline.process_batch s bid files skip now).1.failed = 0
        then "completed" else "partial") ∧
      b.batch_end_time = some now ∧
      b.successful_files = (ETLPipeline.process_batch s bid files skip now).1.successful ∧
      b.failed_files = (ETLPipeline.process_batch s bid files skip now).1.failed := by
  simp only [ETLPipeline.process_batch, Store.update_batch,
    SQLiteMetadataStore.update_batch]
  have hb : createdBatchRow bid files.length now
      ∈ (List.foldl (ETLPipeline.batchStep skip now)
          (batchAccInit s bid files.length now) files).store.batches := by
    rw [batch_fold_batches]
    simp [batchAccInit, createdBatchRow, Store.create_batch,
      SQLiteMetadataStore.create_batch]
  refine ⟨_, List.mem_map_of_mem _ hb, ?_⟩
  simp [createdBatchRow]

/-- C4: `process_batch` over N input files returns one result entry per
input file with `successful + failed + skipped = N` (and `total_files = N`),
and the final BatchRecord carries status `completed` when `failed = 0` and
`partial` otherwise, stamped with the end time and the final counters; no
per-file failure aborts the loop, since every file contributes exactly one
result. -/
theorem claim_C4_batch_invariant (s : Store) (bid : String)
    (files : List BatchFile) (skip : Bool) (now : String) :
    (ETLPipeline.process_batch s bid files skip now).1.results.length
        = files.length ∧
    (ETLPipeline.process_batch s bid files skip now).1.successful
        + (ETLPipeline.process_batch s bid files skip now).1.failed
        + (ETLPipeline.process_batch s bid files skip now).1.skipped
      = files.length ∧
    (ETLPipeline.process_batch s bid files skip now).1.total_files = files.length ∧
    (∃ b ∈ (ETLPipeline.process_batch s bid files skip now).2.batches,
      b.batch_id = bid ∧
      b.status = (if (ETLPipeline.process_batch s bid files skip now).1.failed = 0
        then "completed" else "partial") ∧
      b.batch_end_time = some now ∧
      b.successful_files = (ETLPipeline.process_batch s bid files skip now).1.successful ∧
      b.failed_files = (ETLPipeline.process_batch s bid files skip now).1.failed) :=
  ⟨process_batch_results_len s bid files skip now,
   process_batch_sum_len s bid files skip now,
   rfl,
   process_batch_batch_row s bid files skip now⟩

/-- C5: `process_file` never lets an exception escape: it always returns a
result whose status is `success` or `failed` (hence within the claimed
`success|failed|skipped` set); when it is `failed`, the result carries the
error message and the stored record with the file's hash has been moved to
status `failed`; and `process_batch` always returns a summary with one
result per input file even when individual files fail. -/
theorem claim_C5_no_escape (s : Store) (env : FileEnv) (a : FileArgs)
    (now : String) :
    ((ETLPipeline.process_file s env a now).1.status = "success" ∨
      (ETLPipeline.process_file s env a now).1.status = "failed") ∧
    ((ETLPipeline.process_file s env a now).1.status = "failed" →
      ∃ e, (ETLPipeline.process_file s env a now).1.error = some e ∧
        ∃ r ∈ (ETLPipeline.process_file s env a now).2.files,
          r.file_hash = a.file_hash ∧ r.status = "failed") ∧
    (∀ (bid : String) (bfiles : List BatchFile) (skip : Bool),
      (ETLPipeline.process_batch s bid bfiles skip now).1.results.length
        = bfiles.length) := by
  refine ⟨?_, ?_, fun bid bfiles skip => process_batch_results_len s bid bfiles skip now⟩
  · simp only [ETLPipeline.process_file]
    repeat' split
    all_goals first
      | exact Or.inl rfl
      | exact Or.inr rfl
  · simp only [ETLPipeline.process_file]
    repeat' split
    all_goals intro hfail
    rotate_right 2
    case _ => exact absurd hfail (by simp [ETLPipeline.failResult])
    case _ => exact absurd hfail (by simp [ETLPipeline.failResult])
    all_goals refine ⟨_, rfl, ?_⟩
    · exact store_update_failed_mem (store_add_file_hash_mem s _ now) _ now
    · exact store_update_failed_mem
        (store_update_hash_mem_weak (store_add_file_hash_mem s _ now)
          _ _ _ _ _ _) _ now
    · exact store_update_failed_mem
        (store_update_hash_mem_weak (store_add_file_hash_mem s _ now)
          _ _ _ _ _ _) _ now
    · exact store_update_failed_mem
        (store_update_hash_mem_weak
          (store_update_hash_mem_weak (store_add_file_hash_mem s _ now)
            _ _ _ _ _ _) _ _ _ _ _ _) _ now
    · exact store_update_failed_mem
        (store_update_hash_mem_weak
          (store_update_hash_mem_weak (store_add_file_hash_mem s _ now)
            _ _ _ _ _ _) _ _ _ _ _ _) _ now

/-- Witness for C5: a file whose blob upload raises ends `failed`, the
result carries the message, and the stored record is marked `failed`. -/
theorem claim_C5_witness :
    ∃ e, (ETLPipeline.process_file emptyStore envUploadFail argsPdf "t").1.error
        = some e ∧
      ∃ r ∈ (ETLPipeline.process_file emptyStore envUploadFail argsPdf "t").2.files,
        r.file_hash = argsPdf.file_hash ∧ r.status = "failed" :=
  (claim_C5_no_escape emptyStore envUploadFail argsPdf "t").2.1 (by rfl)

/-- C7 is a code bug: on a successful 2-page run whose pages embed to 5 and
7 tokens respectively, the pipeline stores one EmbeddingRecord per page
with contiguous page numbers 1, 2, but writes `embeddings[0]`'s token
count (5) and dimension into BOTH records — page 2's record does not carry
its own page's token count 7 (src/etl/pipeline.py lines 485-493 pass
`embeddings[0].embedding_dimension` / `embeddings[0].tokens_count` inside
the loop over all pages). -/
theorem claim_C7_code_bug_eval :
    (ETLPipeline.process_file emptyStore envTwoPages argsPdf "t").1.status
        = "success" ∧
    ((ETLPipeline.process_file emptyStore envTwoPages argsPdf "t").2.embeddings.map
        (fun r => (r.page_number, r.tokens_count, r.embedding_dimension))
      = [(1, 5, 128), (2, 5, 128)]) ∧
    envTwoPages.embed 2 = Except.ok (7, 128) :=
  ⟨rfl, rfl, rfl⟩

/-- C8 counterexample: the PDF converter accepts the file, its conversion
yields an empty page sequence, and yet the per-file result is `success`
with zero pages processed — the pipeline does not treat an empty page
sequence as a conversion failure. -/
theorem claim_C8_counterexample :
    PDFProcessor.can_process argsPdf.file_path = true ∧
    envZeroPages.convert = Except.ok 0 ∧
    (ETLPipeline.process_file emptyStore envZeroPages argsPdf "t").1.status
        = "success" ∧
    (ETLPipeline.process_file emptyStore envZeroPages argsPdf "t").1.pages_processed
        = some 0 :=
  ⟨rfl, rfl, rfl, rfl⟩

/-- C8 amended: when a registered converter accepts the file and `convert`
returns an empty page sequence (and the upload and upsert adapters
succeed), the pipeline does NOT treat this as a conversion failure: the
per-file result has status `success` with `pages_processed = 0`, and no
EmbeddingRecord is created. -/
theorem claim_C8_amended (s : Store) (env : FileEnv) (a : FileArgs)
    (now u : String) (pk : ProcKind)
    (hproc : DocumentProcessorFactory.get_processor a.file_path = some pk)
    (hup : env.upload = Except.ok u) (hconv : env.convert = Except.ok 0)
    (hups : env.upsert = Except.ok ()) :
    (ETLPipeline.process_file s env a now).1.status = "success" ∧
    (ETLPipeline.process_file s env a now).1.pages_processed = some 0 ∧
    (ETLPipeline.process_file s env a now).2.embeddings = s.embeddings := by
  simp only [ETLPipeline.process_file, hup, hproc, hconv, hups]
  simp [ETLPipeline.embedPages, Store.update_file_status, Store.add_file]

/-- Witness for the amended C8 at a concrete zero-page environment. -/
theorem claim_C8_amended_witness :
    DocumentProcessorFactory.get_processor argsPdf.file_path = some ProcKind.pdf ∧
    envZeroPages.upload = Except.ok "https://blob.example/a" ∧
    envZeroPages.convert = Except.ok 0 ∧
    envZeroPages.upsert = Except.ok () ∧
    ((ETLPipeline.process_file emptyStore envZeroPages argsPdf "t").1.status
        = "success" ∧
      (ETLPipeline.process_file emptyStore envZeroPages argsPdf "t").1.pages_processed
        = some 0 ∧
      (ETLPipeline.process_file emptyStore envZeroPages argsPdf "t").2.embeddings
        = emptyStore.embeddings) :=
  ⟨rfl, rfl, rfl, rfl,
    claim_C8_amended emptyStore envZeroPages argsPdf "t" "https://blob.example/a"
      ProcKind.pdf rfl rfl rfl rfl⟩
